import Mathlib

/-!
Verification of the reflow-oven-gui hardware-control subsystem.

Shallow embedding of the Python sources:
* `src/reflow_oven/Profile.py` — piecewise-linear target-temperature lookup;
* `src/Device.py` — the per-device sampling loop / lifecycle state machine;
* `src/devices/V3_Pro.py` — the V3 Pro hardware device and its serial
  protocol client (settings shadow cache, save/restore of initial settings);
* `src/reflow_oven/USBDeviceDaemon.py` — the USB hot-plug daemon rescan;
* `src/reflow_oven/DeviceList.py` — the device registry and selection;
* `src/devices/Simulator.py` — the simulated oven temperature model.

Machine numbers (Python ints and floats) are modelled as `ℚ`/`ℤ`;
Python's `round` (banker's rounding) is modelled by `pyRound`.
-/

/-- Python's built-in `round` to the nearest integer, ties to even
(round-half-even), on rationals. -/
def pyRound (x : ℚ) : ℤ :=
  let f : ℤ := ⌊x⌋
  let r : ℚ := x - (f : ℚ)
  if r < 1/2 then f
  else if (1 : ℚ)/2 < r then f + 1
  else if f % 2 = 0 then f else f + 1

/-- Python's `round(x, 2)`: round to 2 decimal digits. -/
def round2 (x : ℚ) : ℚ := ((pyRound (100 * x) : ℚ)) / 100

/-- One data point of a soldering profile: the 3-tuple
`(time, temperature, power)` used throughout the repository. -/
structure PPoint where
  t : ℚ
  temp : ℚ
  pwr : ℚ
deriving DecidableEq, Repr

/-- The Python 3-tuple a profile data point is stored as, viewed as a list of
numbers (Python tuple equality compares component lists, and tuples of
different lengths are unequal). -/
def PPoint.toTuple (p : PPoint) : List ℚ := [p.t, p.temp, p.pwr]

namespace Profile

/-- `Profile.duration`: `float(max([t for (t, y, p) in self.data]))`
(`src/reflow_oven/Profile.py`, line 36). Only used on non-empty data
(`max` of an empty list raises in Python). -/
def duration : List PPoint → ℚ
  | [] => 0
  | [p] => p.t
  | p :: q :: rest => max p.t (duration (q :: rest))

/-- The `for i in range(len(self.data))` loop body of
`Profile._get_surrounding_points` (`src/reflow_oven/Profile.py`,
lines 108–122), carrying the previous point (`prev = none` exactly when
`i == 0`).  Falling off the end of the loop is Python's implicit `None`
return.  The implicit lower bracket before the first point is the 2-tuple
`(0, 0)`, modelled as the 2-element list `[0, 0]`. -/
def surroundingLoop (second : ℚ) (prev : Option PPoint) :
    List PPoint → Option (List ℚ × List ℚ)
  | [] => none
  | p :: rest =>
    if second = p.t then some (p.toTuple, p.toTuple)
    else if second < p.t then
      match prev with
      | none => some ([0, 0], p.toTuple)
      | some q => some (q.toTuple, p.toTuple)
    else surroundingLoop second (some p) rest

/-- `Profile._get_surrounding_points` (`src/reflow_oven/Profile.py`,
lines 92–122): `None` when `second > duration`, else the loop. -/
def get_surrounding_points (data : List PPoint) (second : ℚ) :
    Option (List ℚ × List ℚ) :=
  if second > duration data then none else surroundingLoop second none data

/-- `Profile.get_target_temperature` (`src/reflow_oven/Profile.py`,
lines 65–90).  Unpacking a `None` result raises `TypeError`, caught to
return the last point's temperature (`self.data[-1][1]`), rounded;
otherwise interpolate between the two surrounding tuples (equal tuples
mean an exact time match). -/
def get_target_temperature (data : List PPoint) (second : ℚ) : ℚ :=
  match get_surrounding_points data second with
  | some (pp, np) =>
    if pp ≠ np then
      round2 ((np.getD 1 0 - pp.getD 1 0) / (np.getD 0 0 - pp.getD 0 0)
        * (second - pp.getD 0 0) + pp.getD 1 0)
    else round2 (pp.getD 1 0)
  | none => round2 (data.getLast?.elim 0 (·.temp))

/-- Linear interpolation through `(t0, y0)` and `(t1, y1)`, evaluated at
`s`, in the shape the source computes it (gradient times offset plus
base). -/
def lerp (t0 y0 t1 y1 s : ℚ) : ℚ := (y1 - y0) / (t1 - t0) * (s - t0) + y0

end Profile

/-- The hardware-level serial operations a V3 Pro device method can issue
(`src/devices/V3_Pro.py`): the `doStart`/`doStop` commands and the
write-back of the recorded initial controller settings. -/
inductive HwOp where
  | startCmd : HwOp
  | stopCmd : HwOp
  | writeBackSettings : HwOp
deriving DecidableEq, Repr

/-- `V3Pro.stop_device` (`src/devices/V3_Pro.py`, lines 74–78): it calls
`self._v3_pro_serial_connection.stop()` and nothing else. -/
def V3Pro_stop_device_ops : List HwOp := [HwOp.stopCmd]

/-- `V3Pro.device_finished` (`src/devices/V3_Pro.py`, lines 80–87): stop
the controller, then write the initial settings back.  No code in the
repository ever calls this method. -/
def V3Pro_device_finished_ops : List HwOp := [HwOp.stopCmd, HwOp.writeBackSettings]

namespace Device

/-- The mutable state of one `Device` (`src/Device.py`) as seen by one
iteration of its sampling loop `_run` (lines 125–162): the object fields
plus the loop-local variables `follow_up_time` (here `fut`), `time_stamp`,
`last_time_stamp` and `last_temperature`.  `stop_device_calls` counts the
`self.stop_device()` invocations and `emitted_ops` accumulates the
hardware operations those invocations issue. -/
structure State where
  start_time : ℚ
  temperature : ℚ
  running : Bool
  run_out : Bool
  follow_up_time : ℚ
  runtime : ℤ
  duration : ℚ
  measured_points : List (ℤ × ℚ)
  fut : ℚ
  time_stamp : ℚ
  last_time_stamp : ℚ
  last_temperature : ℚ
  stop_device_calls : ℕ
  emitted_ops : List HwOp
deriving DecidableEq, Repr

/-- One iteration of the `while True` sampling loop of `Device._run`
(`src/Device.py`, lines 137–162).  `stop_ops` is the list of hardware
operations the device variant's `stop_device()` issues; `now` is the value
`time.time()` returns this iteration and `temp` the value
`self.get_temperature()` returns. -/
def runStep (stop_ops : List HwOp) (s : State) (now temp : ℚ) : State :=
  let s1 : State := { s with temperature := temp }
  let s2 : State :=
    if s1.running ∨ s1.run_out then
      let rt : ℤ := pyRound (now - s1.start_time)
      let mp : List (ℤ × ℚ) :=
        if s1.measured_points = [] ∧ 0 < rt then
          s1.measured_points ++ [(0, s1.last_temperature)]
        else s1.measured_points
      { s1 with time_stamp := now, runtime := rt,
                measured_points := mp ++ [(rt, s1.temperature)] }
    else { s1 with runtime := 0 }
  let s3 : State :=
    if s2.run_out ∧ 0 < s2.fut then
      { s2 with fut := s2.fut - (s2.time_stamp - s2.last_time_stamp) }
    else if s2.run_out ∧ s2.fut ≤ 0 then
      { s2 with run_out := false, running := false, fut := s2.follow_up_time,
                stop_device_calls := s2.stop_device_calls + 1,
                emitted_ops := s2.emitted_ops ++ stop_ops }
    else s2
  let s4 : State :=
    if s3.duration ≤ (s3.runtime : ℚ) ∧ s3.running then
      { s3 with running := false, run_out := true }
    else s3
  { s4 with last_time_stamp := s4.time_stamp, last_temperature := s4.temperature }

end Device

namespace V3ProSerialConnection

/-- The 19 controller settings handled by `V3ProSerialConnection`
(`src/devices/V3_Pro.py`, lines 193–213: the keys of
`self._initial_settings`). -/
inductive SettingName where
  | memory_slot | temp_unit | trace | temp_trace | debug | background_light
  | preheat_temp | preheat_time | preheat_pwr
  | soak_temp | soak_time | soak_pwr
  | reflow_temp | reflow_time | reflow_pwr
  | dwell_temp | dwell_time | dwell_pwr
  | auto_extend
deriving DecidableEq, Repr, Fintype

/-- The externally visible actions of
`write_back_initial_controller_settings`: a property-setter assignment
writing one recorded setting back to the controller, or the rewrite of
`storage/v3_pro_initial_settings.json` with the given value of the
`old_settings_written_back_without_errors` flag. -/
inductive WriteBackAction where
  | setSetting (name : SettingName) : WriteBackAction
  | writeFile (clean : Bool) : WriteBackAction
deriving DecidableEq, Repr

/-- The action sequence of `write_back_initial_controller_settings`
(`src/devices/V3_Pro.py`, lines 326–357), in source order: the 18
non-memory-slot setters, then the `memory_slot` setter (the comment in the
source: must be executed last so that the settings are set for the correct
slot), then the record file is rewritten with
`old_settings_written_back_without_errors = True`. -/
def write_back_initial_controller_settings : List WriteBackAction :=
  [ .setSetting .temp_unit, .setSetting .trace, .setSetting .temp_trace,
    .setSetting .debug, .setSetting .background_light,
    .setSetting .preheat_temp, .setSetting .preheat_time, .setSetting .preheat_pwr,
    .setSetting .soak_temp, .setSetting .soak_time, .setSetting .soak_pwr,
    .setSetting .reflow_temp, .setSetting .reflow_time, .setSetting .reflow_pwr,
    .setSetting .dwell_temp, .setSetting .dwell_time, .setSetting .dwell_pwr,
    .setSetting .auto_extend,
    .setSetting .memory_slot,
    .writeFile true ]

/-- The current settings of the physical controller, as its getters would
report them: numeric settings as `ℤ`, the ON/OFF and unit settings as
`String` (the wire values `'C'`/`'F'`, `'ON'`/`'OFF'`). -/
structure Controller where
  memory_slot : ℤ
  temp_unit : String
  trace : String
  temp_trace : String
  debug : String
  background_light : ℤ
  preheat_temp : ℤ
  preheat_time : ℤ
  preheat_pwr : ℤ
  soak_temp : ℤ
  soak_time : ℤ
  soak_pwr : ℤ
  reflow_temp : ℤ
  reflow_time : ℤ
  reflow_pwr : ℤ
  dwell_temp : ℤ
  dwell_time : ℤ
  dwell_pwr : ℤ
  auto_extend : String
deriving DecidableEq, Repr

/-- `V3ProSerialConnection._get_initial_controller_settings`
(`src/devices/V3_Pro.py`, lines 297–324): builds the snapshot dict from
the controller's getters, key by key, exactly as the source does — in
particular line 319 reads `'dwell_temp': self.dwell_time`. -/
def get_initial_controller_settings (c : Controller) : Controller :=
  { memory_slot := c.memory_slot
    temp_unit := c.temp_unit
    trace := c.trace
    temp_trace := c.temp_trace
    debug := c.debug
    background_light := c.background_light
    preheat_temp := c.preheat_temp
    preheat_time := c.preheat_time
    preheat_pwr := c.preheat_pwr
    soak_temp := c.soak_temp
    soak_time := c.soak_time
    soak_pwr := c.soak_pwr
    reflow_temp := c.reflow_temp
    reflow_time := c.reflow_time
    reflow_pwr := c.reflow_pwr
    dwell_temp := c.dwell_time
    dwell_time := c.dwell_time
    dwell_pwr := c.dwell_pwr
    auto_extend := c.auto_extend }

/-- `V3ProSerialConnection.save_initial_controller_settings`
(`src/devices/V3_Pro.py`, lines 263–295).  Input: the controller and the
current record file, `none` modelling an empty/corrupt file
(`JSONDecodeError`), otherwise the stored flag and settings snapshot.
Output: the new in-memory `_initial_settings` and the rewritten record
file `(flag, data)` — the flag is always written back as `false`. -/
def save_initial_controller_settings (c : Controller)
    (file : Option (Bool × Controller)) : Controller × (Bool × Controller) :=
  match file with
  | some (true, _) =>
    let s := get_initial_controller_settings c
    (s, (false, s))
  | some (false, d) => (d, (false, d))
  | none =>
    let s := get_initial_controller_settings c
    (s, (false, s))

/-- Truthiness of an optional integer shadow-cache slot, as Python's
`if self._x:` evaluates it: `None` and `0` are falsy. -/
def truthyInt : Option ℤ → Bool
  | none => false
  | some n => !(n == 0)

/-- The `memory_slot` property getter (`src/devices/V3_Pro.py`,
lines 473–490).  `shadow` is `self._memory_slot`; `wire` is the slot
number the controller would answer with on each attempt (the same each
retry).  Result: `(returned value, new shadow, a wire exchange happened)`;
`none` models the `ConnectionError` raised after the retry budget when
the wire value is out of range 0–4. -/
def memory_slot_get (shadow : Option ℤ) (wire : ℤ) :
    Option (ℤ × Option ℤ × Bool) :=
  if truthyInt shadow then some (shadow.getD 0, shadow, false)
  else if 0 ≤ wire ∧ wire ≤ 4 then some (wire, some wire, true)
  else none

/-- The `background_light` property getter (`src/devices/V3_Pro.py`,
lines 701–718), same shape as `memory_slot_get` with valid range 0–10. -/
def background_light_get (shadow : Option ℤ) (wire : ℤ) :
    Option (ℤ × Option ℤ × Bool) :=
  if truthyInt shadow then some (shadow.getD 0, shadow, false)
  else if 0 ≤ wire ∧ wire ≤ 10 then some (wire, some wire, true)
  else none

end V3ProSerialConnection

namespace V3Pro

/-- `V3Pro.set_profile_on_device` (`src/devices/V3_Pro.py`,
lines 101–131): when `self.running or self.run_out` is false nothing at
all happens; otherwise the first four profile points are pushed onto the
controller as the twelve phase settings, in source order.  Result: the
ordered list of `(setting, value)` serial assignments, `none` when an
`IndexError` is raised (a profile point beyond `len(profile.data)` is
indexed, which aborts the method). -/
def set_profile_on_device (running run_out : Bool)
    (data : List (ℚ × ℚ × ℚ)) : Option (List (V3ProSerialConnection.SettingName × ℚ)) :=
  if running ∨ run_out then
    match data.get? 0, data.get? 1, data.get? 2, data.get? 3 with
    | some p0, some p1, some p2, some p3 =>
      some
        [ (.preheat_time, p0.1), (.preheat_temp, p0.2.1), (.preheat_pwr, p0.2.2),
          (.soak_time, p1.1 - p0.1), (.soak_temp, p1.2.1), (.soak_pwr, p1.2.2),
          (.reflow_time, p2.1 - p1.1), (.reflow_temp, p2.2.1), (.reflow_pwr, p2.2.2),
          (.dwell_time, p3.1 - p2.1), (.dwell_temp, p3.2.1), (.dwell_pwr, p3.2.2) ]
    | _, _, _, _ => none
  else some []

end V3Pro

namespace USBDeviceDaemon

/-- The `for port in self._active_ports: ... self._active_ports.remove(port)`
loop of `USBDeviceDaemon._event_handler` (`src/reflow_oven/USBDeviceDaemon.py`,
lines 148–151), with Python's list-iterator semantics: the iterator keeps
an index `i` into the *mutated* list, `remove` deletes the first
occurrence, and the index advances after every body run (so the element
sliding into a removed slot is skipped).  Returns the mutated
`_active_ports` and the accumulated `removed_ports`. -/
def removeLoop (new_ports : List String) (active removed : List String)
    (i : ℕ) : List String × List String :=
  if h : i < active.length then
    let port := active.get ⟨i, h⟩
    if port ∈ new_ports then removeLoop new_ports active removed (i + 1)
    else removeLoop new_ports (active.erase port) (removed ++ [port]) (i + 1)
  else (active, removed)
termination_by active.length - i
decreasing_by
  · simp_wf; omega
  · simp_wf
    have : (active.erase port).length < active.length := by
      have hmem : port ∈ active := active.get_mem _ _
      calc (active.erase port).length = active.length - 1 :=
            List.length_erase_of_mem hmem
        _ < active.length := by omega
    omega

/-- The `for port in new_ports` loop of `_event_handler`
(`src/reflow_oven/USBDeviceDaemon.py`, lines 154–157): append every port
not yet registered to `_active_ports` and to `added_ports`.  The iterated
list is not mutated, so this is a plain fold. -/
def addLoop (active added : List String) : List String → List String × List String
  | [] => (active, added)
  | p :: rest =>
    if p ∈ active then addLoop active added rest
    else addLoop (active ++ [p]) (added ++ [p]) rest

/-- The externally observable callback invocations of one processed
`usb_device` event. -/
inductive DaemonEvent where
  | removedCb (ports : List String) : DaemonEvent
  | addedCb (ports : List String) : DaemonEvent
  | readyCb : DaemonEvent
deriving DecidableEq, Repr

/-- Daemon state: `_active_ports` and the `_is_device_initialized`
one-shot flag. -/
structure DaemonState where
  active_ports : List String
  is_device_initialized : Bool
deriving DecidableEq, Repr

/-- One full processing of a `usb_device` event by
`USBDeviceDaemon._event_handler` (`src/reflow_oven/USBDeviceDaemon.py`,
lines 136–169): run the removal loop against the freshly enumerated
`new_ports`, then the addition loop, invoke the removed-ports callback
(if non-empty) then the added-ports callback (if non-empty), and finally
`_device_initialization_complete` (lines 113–122) fires the one-shot
ready callback if it has not fired yet.  Returns the new daemon state and
the callback invocations in order. -/
def processRescan (s : DaemonState) (new_ports : List String) :
    DaemonState × List DaemonEvent :=
  let ar := removeLoop new_ports s.active_ports [] 0
  let aa := addLoop ar.1 [] new_ports
  let events :=
    (if ar.2 = [] then [] else [DaemonEvent.removedCb ar.2])
      ++ (if aa.2 = [] then [] else [DaemonEvent.addedCb aa.2])
      ++ (if s.is_device_initialized then [] else [DaemonEvent.readyCb])
  (⟨aa.1, true⟩, events)

end USBDeviceDaemon

namespace DeviceList

/-- One registry entry as the selection logic sees it: the device id and
its `selected` flag (`src/reflow_oven/DeviceList.py`). -/
structure Dev where
  id : String
  selected : Bool
deriving DecidableEq, Repr

/-- Number of devices with `selected = true` in the registry. -/
def countSelected (l : List Dev) : ℕ := (l.filter (·.selected)).length

/-- `self.selected_device.selected = False`
(`src/reflow_oven/DeviceList.py`, line 111): the getter (line 107)
returns the first device with `selected = True` via `next(...)`, and its
flag is cleared.  (With no selected device the Python getter returns
`None` and the assignment raises; that state never arises under the
registry invariant.) -/
def deselectCurrent : List Dev → List Dev
  | [] => []
  | d :: rest =>
    if d.selected then { d with selected := false } :: rest
    else d :: deselectCurrent rest

/-- Lines 112–114 of `src/reflow_oven/DeviceList.py`: find the first
device whose id matches and set its `selected` flag; if none matches,
nothing further happens. -/
def selectById (dev_id : String) : List Dev → List Dev
  | [] => []
  | d :: rest =>
    if d.id = dev_id then { d with selected := true } :: rest
    else d :: selectById dev_id rest

/-- The `selected_device` property setter
(`src/reflow_oven/DeviceList.py`, lines 109–114): deselect the current
selection, then select the device matching `dev_id` if one exists. -/
def selected_device_set (l : List Dev) (dev_id : String) : List Dev :=
  selectById dev_id (deselectCurrent l)

/-- `DeviceList.__init__` (`src/reflow_oven/DeviceList.py`, lines 27–44
together with `_on_device_initialization`, lines 89–97): the device list
starts as the simulator with `selected = True` (lines 31–32), then the
confirmed hardware devices are appended; every `Device.__init__` leaves
`selected = False` (`src/Device.py`, line 71). -/
def construct (hardware : List Dev) : List Dev :=
  ⟨"simulator_1", true⟩ :: hardware

end DeviceList

namespace Simulator

/-- `Simulator.get_temperature` (`src/devices/Simulator.py`,
lines 73–96).  `target_temp` is the profile lookup a few seconds ahead;
`r_up` models `random.randint(5, 6)` and `r_down` models
`random.randint(1, 2)`. -/
def get_temperature (running : Bool) (temperature room_temperature
    target_temp : ℚ) (r_up r_down : ℤ) : ℚ :=
  if running then
    if target_temp > temperature then temperature + (r_up : ℚ)
    else if temperature > target_temp ∧ temperature > room_temperature + 2 then
      temperature - (r_down : ℚ)
    else room_temperature
  else
    if temperature > room_temperature + 2 then temperature - (r_down : ℚ)
    else room_temperature

/-- `Simulator.__init__` (`src/devices/Simulator.py`, lines 43–52):
`self.temperature = self.room_temperature`. -/
def initial_temperature (room_temperature : ℚ) : ℚ := room_temperature

end Simulator

namespace Profile

/-- Every stored time is at most the profile duration. -/
theorem mem_t_le_duration (data : List PPoint) (p : PPoint) (hp : p ∈ data) :
    p.t ≤ duration data := by
  induction data with
  | nil => cases hp
  | cons a rest ih =>
    cases rest with
    | nil =>
      rcases List.mem_singleton.mp hp with rfl
      simp [duration]
    | cons b rest2 =>
      rcases List.mem_cons.mp hp with rfl | hmem
      · exact le_max_left _ _
      · exact le_trans (ih hmem) (le_max_right _ _)

/-- If the query time is past every point, the surrounding-points loop
falls off the end (Python's implicit `None`). -/
theorem surroundingLoop_eq_none (second : ℚ) (l : List PPoint) :
    ∀ prev : Option PPoint, (∀ p ∈ l, p.t < second) →
      surroundingLoop second prev l = none := by
  induction l with
  | nil => intro prev _; rfl
  | cons a rest ih =>
    intro prev h
    have ha : a.t < second := h a (List.mem_cons_self a rest)
    simp only [surroundingLoop, if_neg (ne_of_lt ha).symm,
      if_neg (not_lt.mpr (le_of_lt ha))]
    exact ih (some a) (fun p hp => h p (List.mem_cons_of_mem _ hp))

/-- The loop returns the matched point twice at an exact time match,
for a strictly time-sorted list. -/
theorem surroundingLoop_eq_match (second : ℚ) (l : List PPoint) :
    ∀ prev : Option PPoint,
      l.Pairwise (fun a b : PPoint => a.t < b.t) →
      ∀ p ∈ l, p.t = second →
        surroundingLoop second prev l = some (p.toTuple, p.toTuple) := by
  induction l with
  | nil => intro prev _ p hp; cases hp
  | cons a rest ih =>
    intro prev hs p hp hpt
    rcases List.mem_cons.mp hp with rfl | hmem
    · simp only [surroundingLoop, if_pos hpt.symm]
    · have ha : a.t < p.t := (List.pairwise_cons.mp hs).1 p hmem
      have ha2 : a.t < second := hpt ▸ ha
      simp only [surroundingLoop, if_neg (ne_of_lt ha2).symm,
        if_neg (not_lt.mpr (le_of_lt ha2))]
      exact ih (some a) (List.pairwise_cons.mp hs).2 p hmem hpt

/-- Before the first point the loop brackets with the implicit origin
2-tuple. -/
theorem surroundingLoop_before_first (second : ℚ) (a : PPoint)
    (rest : List PPoint) (h : second < a.t) :
    surroundingLoop second none (a :: rest) = some ([0, 0], a.toTuple) := by
  simp only [surroundingLoop, if_neg (ne_of_lt h), if_pos h]

/-- Between two adjacent stored points the loop returns exactly that
pair, provided everything before the left bracket lies below the query
time. -/
theorem surroundingLoop_bracket (second : ℚ) (a b : PPoint)
    (post : List PPoint) (ha : a.t < second) (hb : second < b.t) :
    ∀ (pre : List PPoint) (prev : Option PPoint), (∀ q ∈ pre, q.t < second) →
      surroundingLoop second prev (pre ++ a :: b :: post)
        = some (a.toTuple, b.toTuple) := by
  intro pre
  induction pre with
  | nil =>
    intro prev _
    simp only [List.nil_append, surroundingLoop, if_neg (ne_of_lt ha).symm,
      if_neg (not_lt.mpr (le_of_lt ha)), if_neg (ne_of_lt hb),
      if_pos hb]
  | cons x pre' ih =>
    intro prev h
    have hx : x.t < second := h x (List.mem_cons_self x pre')
    simp only [List.cons_append, surroundingLoop, if_neg (ne_of_lt hx).symm,
      if_neg (not_lt.mpr (le_of_lt hx))]
    exact ih (some x) (fun q hq => h q (List.mem_cons_of_mem _ hq))

end Profile

/-- C3: for a profile with a non-empty, strictly time-sorted point list and
a query time `t ≥ 0`: past the duration, `get_target_temperature` clamps to
the last point's temperature rounded to 2 decimals; at a stored time it
returns that point's temperature rounded to 2 decimals; strictly before the
first point it interpolates linearly between the implicit `(0, 0)` and the
first point; between two adjacent stored points it interpolates linearly
between them; every result is rounded to 2 decimal digits. -/
theorem C3_get_target_temperature_piecewise
    (data : List PPoint) (second : ℚ) (hne : data ≠ [])
    (hs : data.Pairwise (fun a b : PPoint => a.t < b.t)) (h0 : 0 ≤ second) :
    (Profile.duration data < second →
      Profile.get_target_temperature data second
        = round2 ((data.getLast hne).temp)) ∧
    (∀ p ∈ data, p.t = second →
      Profile.get_target_temperature data second = round2 p.temp) ∧
    (second < (data.head hne).t →
      Profile.get_target_temperature data second
        = round2 (Profile.lerp 0 0 (data.head hne).t (data.head hne).temp second)) ∧
    (∀ pre a b post, data = pre ++ a :: b :: post →
      a.t < second → second < b.t →
      Profile.get_target_temperature data second
        = round2 (Profile.lerp a.t a.temp b.t b.temp second)) := by
  refine ⟨?_, ?_, ?_, ?_⟩
  · -- past the duration: the loop is never entered and the clamp fires
    intro h
    have hsurr : Profile.get_surrounding_points data second = none := by
      unfold Profile.get_surrounding_points
      exact if_pos h
    unfold Profile.get_target_temperature
    rw [hsurr, List.getLast?_eq_getLast data hne]
    rfl
  · -- exact time match
    intro p hp hpt
    have hle : second ≤ Profile.duration data :=
      hpt ▸ Profile.mem_t_le_duration data p hp
    have hsurr : Profile.get_surrounding_points data second
        = some (p.toTuple, p.toTuple) := by
      unfold Profile.get_surrounding_points
      rw [if_neg (not_lt.mpr hle)]
      exact Profile.surroundingLoop_eq_match second data none hs p hp hpt
    unfold Profile.get_target_temperature
    rw [hsurr]
    simp [PPoint.toTuple]
  · -- strictly before the first point
    intro h
    obtain ⟨a, rest, rfl⟩ := List.exists_cons_of_ne_nil hne
    have hat : (((a :: rest).head hne)) = a := rfl
    rw [hat] at h ⊢
    have hle : second ≤ Profile.duration (a :: rest) :=
      le_of_lt (lt_of_lt_of_le h
        (Profile.mem_t_le_duration _ a (List.mem_cons_self a rest)))
    have hsurr : Profile.get_surrounding_points (a :: rest) second
        = some ([0, 0], a.toTuple) := by
      unfold Profile.get_surrounding_points
      rw [if_neg (not_lt.mpr hle)]
      exact Profile.surroundingLoop_before_first second a rest h
    unfold Profile.get_target_temperature
    rw [hsurr]
    dsimp only
    have hne2 : ([0, 0] : List ℚ) ≠ a.toTuple := by simp [PPoint.toTuple]
    rw [if_pos hne2]
    unfold Profile.lerp
    congr 1
  · -- bracketed between two adjacent stored points
    intro pre a b post hdata ha hb
    subst hdata
    have hbmem : b ∈ pre ++ a :: b :: post := by simp
    have hle : second ≤ Profile.duration (pre ++ a :: b :: post) :=
      le_of_lt (lt_of_lt_of_le hb (Profile.mem_t_le_duration _ b hbmem))
    have hpre : ∀ q ∈ pre, q.t < second := by
      intro q hq
      have := (List.pairwise_append.mp hs).2.2 q hq a (List.mem_cons_self a _)
      exact lt_trans this ha
    have hsurr : Profile.get_surrounding_points (pre ++ a :: b :: post) second
        = some (a.toTuple, b.toTuple) := by
      unfold Profile.get_surrounding_points
      rw [if_neg (not_lt.mpr hle)]
      exact Profile.surroundingLoop_bracket second a b post ha hb pre none hpre
    unfold Profile.get_target_temperature
    rw [hsurr]
    dsimp only
    have hne2 : a.toTuple ≠ b.toTuple := by
      have : a.t ≠ b.t := ne_of_lt (lt_trans ha hb)
      simp [PPoint.toTuple]
      intro h1
      exact absurd h1 this
    rw [if_pos hne2]
    unfold Profile.lerp
    congr 1

/-- Witness for C3: the spec's own example profile
`[(60,150,50), (120,180,60), (180,220,70), (240,100,30)]`, queried at
`t = 90` (bracketed between the first two points), evaluates to `165`. -/
theorem C3_witness :
    Profile.get_target_temperature
      [⟨60, 150, 50⟩, ⟨120, 180, 60⟩, ⟨180, 220, 70⟩, ⟨240, 100, 30⟩] 90
      = 165 := by
  have h := (C3_get_target_temperature_piecewise
    [⟨60, 150, 50⟩, ⟨120, 180, 60⟩, ⟨180, 220, 70⟩, ⟨240, 100, 30⟩]
    90 (by simp) (by norm_num [List.pairwise_cons]) (by norm_num)).2.2.2
    [] ⟨60, 150, 50⟩ ⟨120, 180, 60⟩ [⟨180, 220, 70⟩, ⟨240, 100, 30⟩]
    rfl (by norm_num) (by norm_num)
  rw [h]
  norm_num [Profile.lerp, round2, pyRound]


/-- C1: every run of `write_back_initial_controller_settings` writes all
recorded settings other than the memory slot first, writes the memory-slot
setting last (no setting write occurs after it), and then marks the local
record file clean (`old_settings_written_back_without_errors = True`). -/
theorem C1_write_back_order_and_clean_mark :
    ∃ pre,
      V3ProSerialConnection.write_back_initial_controller_settings
        = pre ++ [V3ProSerialConnection.WriteBackAction.setSetting .memory_slot,
                  V3ProSerialConnection.WriteBackAction.writeFile true] ∧
      (∀ a ∈ pre, ∃ n, a = V3ProSerialConnection.WriteBackAction.setSetting n
          ∧ n ≠ V3ProSerialConnection.SettingName.memory_slot) ∧
      (∀ n : V3ProSerialConnection.SettingName,
          n ≠ V3ProSerialConnection.SettingName.memory_slot →
          V3ProSerialConnection.WriteBackAction.setSetting n ∈ pre) :=
  ⟨V3ProSerialConnection.write_back_initial_controller_settings.take 18,
    by decide, by decide, by decide⟩

/-- A device state at the very end of the follow-up countdown: in run-out
with the loop-local countdown at 0, a clean record of no prior
`stop_device()` calls, mid-run timestamps. -/
def C2_failing_state : Device.State :=
  { start_time := 0, temperature := 21, running := false, run_out := true,
    follow_up_time := 30, runtime := 9, duration := 240, measured_points := [],
    fut := 0, time_stamp := 9, last_time_stamp := 9, last_temperature := 21,
    stop_device_calls := 0, emitted_ops := [] }

/-- C2 (code-bug evidence): at the RunningOut → Idle transition the
sampling loop makes exactly one `stop_device()` invocation, but for a
V3Pro that invocation issues only the hardware stop command — the
initial-settings write-back is not part of it (it lives only in the
never-called `device_finished`). -/
theorem C2_completed_run_stop_without_write_back :
    (Device.runStep V3Pro_stop_device_ops C2_failing_state 10 25).stop_device_calls
        = C2_failing_state.stop_device_calls + 1 ∧
    (Device.runStep V3Pro_stop_device_ops C2_failing_state 10 25).running = false ∧
    (Device.runStep V3Pro_stop_device_ops C2_failing_state 10 25).run_out = false ∧
    (Device.runStep V3Pro_stop_device_ops C2_failing_state 10 25).fut
        = C2_failing_state.follow_up_time ∧
    (Device.runStep V3Pro_stop_device_ops C2_failing_state 10 25).emitted_ops
        = [HwOp.stopCmd] ∧
    HwOp.writeBackSettings
        ∉ (Device.runStep V3Pro_stop_device_ops C2_failing_state 10 25).emitted_ops ∧
    HwOp.writeBackSettings ∈ V3Pro_device_finished_ops := by
  norm_num [Device.runStep, C2_failing_state, pyRound,
    V3Pro_stop_device_ops, V3Pro_device_finished_ops]
  decide

/-- C7: while in the Running state, any sampling-loop iteration whose
freshly computed runtime reaches the profile duration moves the device to
RunningOut (`running := false`, `run_out := true`) with no `stop_device()`
call (and hence no hardware operation). -/
theorem C7_running_to_run_out_without_stop
    (stop_ops : List HwOp) (s : Device.State) (now temp : ℚ)
    (hrun : s.running = true) (hro : s.run_out = false)
    (hdur : s.duration ≤ (pyRound (now - s.start_time) : ℚ)) :
    (Device.runStep stop_ops s now temp).running = false ∧
    (Device.runStep stop_ops s now temp).run_out = true ∧
    (Device.runStep stop_ops s now temp).stop_device_calls
        = s.stop_device_calls ∧
    (Device.runStep stop_ops s now temp).emitted_ops = s.emitted_ops := by
  dsimp only [Device.runStep]
  simp [hrun, hro, hdur]

/-- A mid-run device state for the C7 witness: running, not in run-out,
with profile duration 240. -/
def C7_witness_state : Device.State :=
  { start_time := 0, temperature := 21, running := true, run_out := false,
    follow_up_time := 30, runtime := 239, duration := 240,
    measured_points := [], fut := 30, time_stamp := 239,
    last_time_stamp := 239, last_temperature := 21,
    stop_device_calls := 0, emitted_ops := [] }

/-- Witness for C7: at `now = 240` the runtime 240 reaches the duration
240 and the transition happens with no `stop_device()` call. -/
theorem C7_witness :
    (Device.runStep [] C7_witness_state 240 25).running = false ∧
    (Device.runStep [] C7_witness_state 240 25).run_out = true ∧
    (Device.runStep [] C7_witness_state 240 25).stop_device_calls
        = C7_witness_state.stop_device_calls ∧
    (Device.runStep [] C7_witness_state 240 25).emitted_ops
        = C7_witness_state.emitted_ops :=
  C7_running_to_run_out_without_stop [] C7_witness_state 240 25 rfl rfl
    (by norm_num [C7_witness_state, pyRound])

/-- A controller whose dwell-phase temperature (183) differs from its
dwell-phase time (30), together with ordinary values for the other
settings. -/
def C4_failing_controller : V3ProSerialConnection.Controller :=
  { memory_slot := 4, temp_unit := "C", trace := "OFF", temp_trace := "OFF",
    debug := "OFF", background_light := 5, preheat_temp := 100,
    preheat_time := 60, preheat_pwr := 50, soak_temp := 150, soak_time := 60,
    soak_pwr := 60, reflow_temp := 220, reflow_time := 60, reflow_pwr := 70,
    dwell_temp := 183, dwell_time := 30, dwell_pwr := 30, auto_extend := "OFF" }

/-- C4 (code-bug evidence): with a clean record file,
`save_initial_controller_settings` re-captures the controller settings,
but the snapshot's `dwell_temp` entry holds the controller's dwell *time*
(30), not its dwell temperature (183) — line 319 of
`src/devices/V3_Pro.py` reads `self.dwell_time`.  The record flag is
rewritten to `False` as claimed. -/
theorem C4_snapshot_records_dwell_time_as_dwell_temp :
    C4_failing_controller.dwell_temp = 183 ∧
    C4_failing_controller.dwell_time = 30 ∧
    (V3ProSerialConnection.save_initial_controller_settings C4_failing_controller
        (some (true, C4_failing_controller))).1.dwell_temp = 30 ∧
    (V3ProSerialConnection.save_initial_controller_settings C4_failing_controller
        (some (true, C4_failing_controller))).2.1 = false :=
  ⟨rfl, rfl, rfl, rfl⟩

/-- C5 (code-bug evidence): a rescan from known ports `[A, B]` to an empty
enumeration invokes the removed-ports callback with `[A]` only — the
`for`/`remove` loop mutates `_active_ports` while iterating, so `B` is
skipped — and `B` wrongly survives in the known set, which therefore does
not equal the new enumeration.  (`K \ N` here is `[A, B]`, not `[A]`.) -/
theorem C5_rescan_skips_port_after_removed_port :
    USBDeviceDaemon.processRescan ⟨["A", "B"], true⟩ []
      = (⟨["B"], true⟩, [USBDeviceDaemon.DaemonEvent.removedCb ["A"]]) ∧
    (USBDeviceDaemon.DaemonEvent.removedCb ["A"]
      ≠ USBDeviceDaemon.DaemonEvent.removedCb ["A", "B"]) ∧
    (["B"] : List String) ≠ ([] : List String) := by
  refine ⟨?_, by decide, by decide⟩
  simp [USBDeviceDaemon.processRescan, USBDeviceDaemon.removeLoop,
    USBDeviceDaemon.addLoop]

/-- C6 counterexample: the shadow holding the value 0 — a set, known value
for both `memory_slot` (range 0–4) and `background_light` (range 0–10) —
still triggers a hardware round trip, because the getters test Python
truthiness (`if self._x:`), not `is not None`. -/
theorem C6_counterexample_zero_shadow_round_trips :
    V3ProSerialConnection.memory_slot_get (some 0) 3 = some (3, some 3, true) ∧
    V3ProSerialConnection.background_light_get (some 0) 7
      = some (7, some 7, true) ∧
    (some (0 : ℤ)) ≠ (none : Option ℤ) := by decide

/-- C6 amended: a settings getter skips the wire exchange and returns the
shadow value whenever the shadow is *truthy* (set and non-zero); a
hardware round trip occurs exactly when the shadow is `None` or holds the
in-band falsy value 0. -/
theorem C6_amended_getter_shadow_truthiness
    (shadow : Option ℤ) (v wire : ℤ) (hs : shadow = some v) (hv : v ≠ 0)
    (hw : 0 ≤ wire) :
    V3ProSerialConnection.memory_slot_get shadow wire
      = some (v, some v, false) ∧
    V3ProSerialConnection.background_light_get shadow wire
      = some (v, some v, false) ∧
    (wire ≤ 4 →
      V3ProSerialConnection.memory_slot_get none wire
          = some (wire, some wire, true) ∧
      V3ProSerialConnection.memory_slot_get (some 0) wire
          = some (wire, some wire, true)) ∧
    (wire ≤ 10 →
      V3ProSerialConnection.background_light_get none wire
          = some (wire, some wire, true) ∧
      V3ProSerialConnection.background_light_get (some 0) wire
          = some (wire, some wire, true)) := by
  subst hs
  refine ⟨?_, ?_, ?_, ?_⟩
  · simp [V3ProSerialConnection.memory_slot_get,
      V3ProSerialConnection.truthyInt, hv]
  · simp [V3ProSerialConnection.background_light_get,
      V3ProSerialConnection.truthyInt, hv]
  · intro h4
    constructor <;>
      simp [V3ProSerialConnection.memory_slot_get,
        V3ProSerialConnection.truthyInt, hw, h4]
  · intro h10
    constructor <;>
      simp [V3ProSerialConnection.background_light_get,
        V3ProSerialConnection.truthyInt, hw, h10]

/-- Witness for the amended C6: shadow value 3, wire value 2. -/
theorem C6_amended_witness :
    V3ProSerialConnection.memory_slot_get (some 3) 2
      = some (3, some 3, false) ∧
    V3ProSerialConnection.background_light_get (some 3) 2
      = some (3, some 3, false) ∧
    ((2 : ℤ) ≤ 4 →
      V3ProSerialConnection.memory_slot_get none 2 = some (2, some 2, true) ∧
      V3ProSerialConnection.memory_slot_get (some 0) 2
        = some (2, some 2, true)) ∧
    ((2 : ℤ) ≤ 10 →
      V3ProSerialConnection.background_light_get none 2
        = some (2, some 2, true) ∧
      V3ProSerialConnection.background_light_get (some 0) 2
        = some (2, some 2, true)) :=
  C6_amended_getter_shadow_truthiness (some 3) 3 2 rfl (by decide) (by decide)

namespace DeviceList

/-- Selected-count over a cons cell. -/
theorem countSelected_cons (d : Dev) (rest : List Dev) :
    countSelected (d :: rest)
      = (if d.selected then 1 else 0) + countSelected rest := by
  by_cases h : d.selected <;>
    simp [countSelected, List.filter_cons, h, Nat.add_comm]

/-- Deselecting the current selection takes a one-selection registry to a
zero-selection registry. -/
theorem countSelected_deselectCurrent (l : List Dev) :
    countSelected l = 1 → countSelected (deselectCurrent l) = 0 := by
  induction l with
  | nil => intro h; cases h
  | cons d rest ih =>
    intro h
    rw [countSelected_cons] at h
    by_cases hd : d.selected
    · rw [if_pos hd] at h
      simp only [deselectCurrent, if_pos hd]
      rw [countSelected_cons]
      simp
      omega
    · rw [if_neg hd] at h
      simp only [deselectCurrent, if_neg hd]
      rw [countSelected_cons, if_neg hd]
      simp [ih (by omega)]

/-- Selecting an id that is present in a zero-selection registry yields a
one-selection registry. -/
theorem countSelected_selectById (dev_id : String) (l : List Dev) :
    countSelected l = 0 → (∃ d ∈ l, d.id = dev_id) →
      countSelected (selectById dev_id l) = 1 := by
  induction l with
  | nil => intro _ hmem; simp at hmem
  | cons d rest ih =>
    intro h0 hmem
    rw [countSelected_cons] at h0
    have hdsel : d.selected = false := by
      by_cases hd : d.selected
      · rw [if_pos hd] at h0; omega
      · simpa using hd
    have hrest0 : countSelected rest = 0 := by
      rw [if_neg (by simp [hdsel])] at h0; omega
    by_cases hid : d.id = dev_id
    · simp only [selectById, if_pos hid]
      rw [countSelected_cons]
      simp [hrest0]
    · simp only [selectById, if_neg hid]
      rw [countSelected_cons, if_neg (by simp [hdsel])]
      rcases hmem with ⟨e, he, heid⟩
      rcases List.mem_cons.mp he with rfl | hemem
      · exact absurd heid hid
      · simp [ih hrest0 ⟨e, hemem, heid⟩]

/-- Deselecting does not change which ids are present. -/
theorem deselectCurrent_mem_id (l : List Dev) (dev_id : String) :
    (∃ d ∈ l, d.id = dev_id) → ∃ d ∈ deselectCurrent l, d.id = dev_id := by
  induction l with
  | nil => intro h; simpa using h
  | cons d rest ih =>
    intro ⟨e, he, heid⟩
    by_cases hd : d.selected
    · simp only [deselectCurrent, if_pos hd]
      rcases List.mem_cons.mp he with rfl | hemem
      · exact ⟨{ e with selected := false }, List.mem_cons_self _ _, heid⟩
      · exact ⟨e, List.mem_cons_of_mem _ hemem, heid⟩
    · simp only [deselectCurrent, if_neg hd]
      rcases List.mem_cons.mp he with rfl | hemem
      · exact ⟨e, List.mem_cons_self _ _, heid⟩
      · rcases ih ⟨e, hemem, heid⟩ with ⟨f, hf, hfid⟩
        exact ⟨f, List.mem_cons_of_mem _ hf, hfid⟩

/-- Selecting an id that no device carries changes nothing. -/
theorem selectById_no_match (dev_id : String) (l : List Dev) :
    (∀ d ∈ l, d.id ≠ dev_id) → selectById dev_id l = l := by
  induction l with
  | nil => intro _; rfl
  | cons d rest ih =>
    intro h
    simp only [selectById, if_neg (h d (List.mem_cons_self d rest))]
    rw [ih (fun e he => h e (List.mem_cons_of_mem _ he))]

/-- Deselecting introduces no new ids. -/
theorem deselectCurrent_id_ne (l : List Dev) (x : String) :
    (∀ d ∈ l, d.id ≠ x) → ∀ d ∈ deselectCurrent l, d.id ≠ x := by
  induction l with
  | nil => intro _ d hd; cases hd
  | cons d rest ih =>
    intro h e he
    by_cases hd : d.selected
    · simp only [deselectCurrent, if_pos hd] at he
      rcases List.mem_cons.mp he with rfl | hemem
      · exact h d (List.mem_cons_self d rest)
      · exact h e (List.mem_cons_of_mem _ hemem)
    · simp only [deselectCurrent, if_neg hd] at he
      rcases List.mem_cons.mp he with rfl | hemem
      · exact h e (List.mem_cons_self e rest)
      · exact ih (fun f hf => h f (List.mem_cons_of_mem _ hf)) e hemem

/-- A registry of devices none of which is selected counts zero. -/
theorem countSelected_eq_zero (l : List Dev) :
    (∀ d ∈ l, d.selected = false) → countSelected l = 0 := by
  induction l with
  | nil => intro _; rfl
  | cons d rest ih =>
    intro h
    rw [countSelected_cons,
      if_neg (by simp [h d (List.mem_cons_self d rest)])]
    simp [ih (fun e he => h e (List.mem_cons_of_mem _ he))]

end DeviceList

/-- C8 counterexample: assigning a device id that matches no device in the
list (here `"nope"` against the freshly constructed registry) leaves zero
devices selected — the setter deselects the current selection and then
finds nothing to select — so the exactly-one-selected invariant is not
preserved for ids that match no device. -/
theorem C8_counterexample_unknown_id_breaks_invariant :
    DeviceList.countSelected (DeviceList.construct []) = 1 ∧
    DeviceList.countSelected
      (DeviceList.selected_device_set (DeviceList.construct []) "nope") = 0 := by
  constructor <;> rfl

/-- C8 amended: the exactly-one-selected invariant holds after
construction (the simulator is pre-selected, appended hardware devices are
constructed unselected) and is preserved by an assignment to
`selected_device` whose id matches some device in the list; an assignment
whose id matches no device instead leaves zero devices selected. -/
theorem C8_amended_selection_invariant
    (hardware l : List DeviceList.Dev) (dev_id : String)
    (hhw : ∀ d ∈ hardware, d.selected = false)
    (hinv : DeviceList.countSelected l = 1)
    (hmem : ∃ d ∈ l, d.id = dev_id) :
    DeviceList.countSelected (DeviceList.construct hardware) = 1 ∧
    DeviceList.countSelected (DeviceList.selected_device_set l dev_id) = 1 ∧
    (∀ l2 : List DeviceList.Dev, DeviceList.countSelected l2 = 1 →
      (∀ d ∈ l2, d.id ≠ dev_id) →
      DeviceList.countSelected (DeviceList.selected_device_set l2 dev_id) = 0) := by
  refine ⟨?_, ?_, ?_⟩
  · rw [DeviceList.construct, DeviceList.countSelected_cons]
    simp [DeviceList.countSelected_eq_zero hardware hhw]
  · exact DeviceList.countSelected_selectById dev_id _
      (DeviceList.countSelected_deselectCurrent l hinv)
      (DeviceList.deselectCurrent_mem_id l dev_id hmem)
  · intro l2 hinv2 hnomem
    have h0 : DeviceList.countSelected (DeviceList.deselectCurrent l2) = 0 :=
      DeviceList.countSelected_deselectCurrent l2 hinv2
    rw [DeviceList.selected_device_set, DeviceList.selectById_no_match dev_id _
      (DeviceList.deselectCurrent_id_ne l2 dev_id hnomem)]
    exact h0

/-- Witness for the amended C8: one hardware device, a two-device registry
with the simulator selected, and the hardware device's id assigned. -/
theorem C8_amended_witness :
    DeviceList.countSelected
      (DeviceList.construct [⟨"v3pro_1", false⟩]) = 1 ∧
    DeviceList.countSelected
      (DeviceList.selected_device_set
        [⟨"simulator_1", true⟩, ⟨"v3pro_1", false⟩] "v3pro_1") = 1 ∧
    (∀ l2 : List DeviceList.Dev, DeviceList.countSelected l2 = 1 →
      (∀ d ∈ l2, d.id ≠ "v3pro_1") →
      DeviceList.countSelected (DeviceList.selected_device_set l2 "v3pro_1")
        = 0) :=
  C8_amended_selection_invariant [⟨"v3pro_1", false⟩]
    [⟨"simulator_1", true⟩, ⟨"v3pro_1", false⟩] "v3pro_1"
    (by decide) (by decide) ⟨⟨"v3pro_1", false⟩, by decide, rfl⟩


/-- C9: `V3Pro.set_profile_on_device` performs no serial writes when the
device is neither running nor in run-out; when it is, it succeeds exactly
when the profile has at least 4 data points (fewer raise an `IndexError`),
and its behaviour depends only on the first four points — points beyond
the fourth are never written to the controller. -/
theorem C9_set_profile_on_device_guard_and_four_points
    (running run_out : Bool) (data : List (ℚ × ℚ × ℚ)) :
    (¬(running = true ∨ run_out = true) →
      V3Pro.set_profile_on_device running run_out data = some []) ∧
    ((running = true ∨ run_out = true) →
      ((V3Pro.set_profile_on_device running run_out data).isSome
        ↔ 4 ≤ data.length)) ∧
    V3Pro.set_profile_on_device running run_out data
      = V3Pro.set_profile_on_device running run_out (data.take 4) := by
  refine ⟨?_, ?_, ?_⟩
  · intro h
    simp [V3Pro.set_profile_on_device, h]
  · intro h
    simp only [V3Pro.set_profile_on_device, if_pos h]
    rcases data with _ | ⟨p0, _ | ⟨p1, _ | ⟨p2, _ | ⟨p3, rest⟩⟩⟩⟩ <;> simp
  · by_cases h : running = true ∨ run_out = true
    · simp only [V3Pro.set_profile_on_device, if_pos h]
      rcases data with _ | ⟨p0, _ | ⟨p1, _ | ⟨p2, _ | ⟨p3, rest⟩⟩⟩⟩ <;> simp
    · simp [V3Pro.set_profile_on_device, h]

/-- C10: from any state whose temperature is at least room temperature,
`Simulator.get_temperature` returns a value at least room temperature, in
both the running and the idle branch, for every target temperature and
every value the two `randint` draws can take; the initial temperature is
room temperature itself. -/
theorem C10_simulator_temperature_never_below_room
    (running : Bool) (temperature room_temperature target_temp : ℚ)
    (r_up r_down : ℤ) (htemp : room_temperature ≤ temperature)
    (hup1 : 5 ≤ r_up) (hup2 : r_up ≤ 6)
    (hdown1 : 1 ≤ r_down) (hdown2 : r_down ≤ 2) :
    room_temperature
      ≤ Simulator.get_temperature running temperature room_temperature
          target_temp r_up r_down ∧
    room_temperature
      ≤ Simulator.initial_temperature room_temperature := by
  have hupQ : (5 : ℚ) ≤ (r_up : ℚ) := by exact_mod_cast hup1
  have hdownQ : (r_down : ℚ) ≤ 2 := by exact_mod_cast hdown2
  constructor
  · unfold Simulator.get_temperature
    split_ifs with h1 h2 h3 h4
    · linarith
    · rcases h3 with ⟨-, hover⟩
      linarith
    · exact le_refl _
    · linarith
    · exact le_refl _
  · exact le_refl _

/-- Witness for C10: running, temperature 25 over room temperature 21,
target 100, `randint` draws 5 and 1. -/
theorem C10_witness :
    (21 : ℚ) ≤ Simulator.get_temperature true 25 21 100 5 1 ∧
    (21 : ℚ) ≤ Simulator.initial_temperature 21 :=
  C10_simulator_temperature_never_below_room true 25 21 100 5 1
    (by norm_num) (by decide) (by decide) (by decide) (by decide)
